import Mathlib

/-!
Shallow embedding of the pdf-extractor server's storage and route layers
(src/storage.ts, src/routes.ts, src/index.ts).  External collaborators are
modelled explicitly: the SQL database behind `src/db` is a state value threaded
through the storage methods, the extraction core and the Excel encoders (whose
sources are outside src/) appear as function parameters returning `Except`, and
possible database-insert failures are oracles giving each call's outcome.  Each
HTTP handler is then a pure function from its inputs and the database state to
a response and a new state.
-/

namespace PdtExtractor

/-- Modelled from the spec: `TableInfo` (spec section 3) — per-table metadata
produced by the extraction core (`src/pdf-extraction/detect-tables`, not present
under src/): page number, zero-based table index, row and column counts,
bounding box, and a confidence score.  The server stores it verbatim as the
`tableInfo` JSON payload and reads only `pageNumber` from it. -/
structure TableInfo where
  pageNumber : Nat
  tableIndex : Nat
  rowCount : Nat
  columnCount : Nat
  x0 : Rat
  y0 : Rat
  x1 : Rat
  y1 : Rat
  confidence : Rat
deriving DecidableEq

/-- `TableData` (spec section 3): ordered rows of cell strings.  The server
treats it as an opaque payload (the `data` / `tableData` fields). -/
abbrev TableData := List (List String)

/-- `ExtractedTableData` (shape used by routes.ts and by the conversion in
`DatabaseStorage.getExtractedTablesByDocumentId`): one extracted table as the
core returns it — `tableIndex`, grid `data`, and `info` metadata. -/
structure ExtractedTableData where
  tableIndex : Nat
  data : TableData
  info : TableInfo
deriving DecidableEq

/-- A row of the `pdf_documents` table.  `uploadDate` is filled by the database
default, since `createPdfDocument` does not supply it. -/
structure PdfDocumentRow where
  id : Nat
  filename : String
  filesize : Nat
  uploadDate : String
  userId : Option Nat
deriving DecidableEq

/-- A row of the `extracted_tables` table. -/
structure ExtractedTableRow where
  id : Nat
  documentId : Nat
  tableIndex : Nat
  pageNumber : Nat
  tableData : TableData
  tableInfo : TableInfo
deriving DecidableEq

/-- `InsertPdfDocument`: the validated payload passed to `createPdfDocument`. -/
structure InsertPdfDocument where
  filename : String
  filesize : Nat
  uploadDate : String
  userId : Option Nat
deriving DecidableEq

/-- `InsertExtractedTable`: the payload passed to `createExtractedTable`. -/
structure InsertExtractedTable where
  documentId : Nat
  tableIndex : Nat
  pageNumber : Nat
  tableData : TableData
  tableInfo : TableInfo
deriving DecidableEq

/-- State of the external SQL database behind `src/db`.  Inserts append a row
carrying the next serial id; `now` is the database clock used for column
defaults (`uploadDate` has a default, and `createPdfDocument` omits it). -/
structure Db where
  documents : List PdfDocumentRow
  tables : List ExtractedTableRow
  nextDocId : Nat
  nextTableId : Nat
  now : String
deriving DecidableEq

/-- storage.ts `DatabaseStorage.getPdfDocument`: select the row whose id
matches (the primary-key lookup returns at most one row). -/
def DatabaseStorage.getPdfDocument (db : Db) (id : Nat) : Option PdfDocumentRow :=
  (db.documents.filter (fun d => d.id == id)).head?

/-- storage.ts `DatabaseStorage.createPdfDocument`: insert filename, filesize
and userId; the id and the uploadDate come from the database (serial, default);
the insert's own `uploadDate` field is not written. -/
def DatabaseStorage.createPdfDocument (db : Db) (document : InsertPdfDocument) :
    PdfDocumentRow × Db :=
  let row : PdfDocumentRow :=
    { id := db.nextDocId, filename := document.filename, filesize := document.filesize,
      uploadDate := db.now, userId := document.userId }
  (row, { db with documents := db.documents ++ [row], nextDocId := db.nextDocId + 1 })

/-- storage.ts `DatabaseStorage.getExtractedTable`: select the row whose id
matches. -/
def DatabaseStorage.getExtractedTable (db : Db) (id : Nat) : Option ExtractedTableRow :=
  (db.tables.filter (fun t => t.id == id)).head?

/-- Ascending order on `tableIndex`, the `orderBy(extractedTables.tableIndex)`
clause of `getExtractedTablesByDocumentId`. -/
def tableIndexLe (a b : ExtractedTableRow) : Prop :=
  a.tableIndex ≤ b.tableIndex

instance : DecidableRel tableIndexLe :=
  fun a b => Nat.decLe a.tableIndex b.tableIndex

instance : IsTotal ExtractedTableRow tableIndexLe :=
  ⟨fun a b => Nat.le_total a.tableIndex b.tableIndex⟩

instance : IsTrans ExtractedTableRow tableIndexLe :=
  ⟨fun _ _ _ hab hbc => Nat.le_trans hab hbc⟩

/-- storage.ts `DatabaseStorage.getExtractedTablesByDocumentId`: select the
document's rows ordered by ascending `tableIndex`, then convert each row to the
`ExtractedTableData` projection `{tableIndex, data, info}`. -/
def DatabaseStorage.getExtractedTablesByDocumentId (db : Db) (documentId : Nat) :
    List ExtractedTableData :=
  let tables :=
    List.insertionSort tableIndexLe (db.tables.filter (fun t => t.documentId == documentId))
  tables.map (fun t => { tableIndex := t.tableIndex, data := t.tableData, info := t.tableInfo })

/-- storage.ts `DatabaseStorage.createExtractedTable`: insert the payload,
returning the stored row. -/
def DatabaseStorage.createExtractedTable (db : Db) (table : InsertExtractedTable) :
    ExtractedTableRow × Db :=
  let row : ExtractedTableRow :=
    { id := db.nextTableId, documentId := table.documentId, tableIndex := table.tableIndex,
      pageNumber := table.pageNumber, tableData := table.tableData, tableInfo := table.tableInfo }
  (row, { db with tables := db.tables ++ [row], nextTableId := db.nextTableId + 1 })

/-- An incoming multipart upload before multer inspects it. -/
structure IncomingFile where
  originalname : String
  mimetype : String
  bytes : List Nat
deriving DecidableEq

/-- `req.file` as the route handler sees it after multer's memory storage:
the complete buffer is in memory and `size` is its byte length. -/
structure UploadedFile where
  originalname : String
  size : Nat
  buffer : List Nat
deriving DecidableEq

/-- routes.ts: `fileSize: 10 * 1024 * 1024`. -/
def maxUploadBytes : Nat := 10 * 1024 * 1024

/-- The multer configuration of routes.ts: memory storage, a 10 MB `fileSize`
limit, and a `fileFilter` accepting only mimetype `application/pdf`.  A
rejected upload never reaches the route handler: multer's error goes to the
express error middleware of index.ts, which answers status 500 with the error
message (`File too large` is multer's LIMIT_FILE_SIZE message). -/
def uploadSingle (f : IncomingFile) : Except String UploadedFile :=
  if f.mimetype = "application/pdf" then
    if f.bytes.length ≤ maxUploadBytes then
      .ok { originalname := f.originalname, size := f.bytes.length, buffer := f.bytes }
    else .error "File too large"
  else .error "Only PDF files are allowed"

/-- Response of POST /api/extract: on success the handler answers 200 with the
saved document's fields and the extracted tables; every failure is caught and
answered as a status plus an error message. -/
inductive ExtractResponse where
  | success (status : Nat) (documentId : Nat) (filename : String) (filesize : Nat)
      (uploadDate : String) (tables : List ExtractedTableData)
  | error (status : Nat) (message : String)
deriving DecidableEq

/-- Response of the two Excel download routes: a binary file with the headers
the handler set, or a status plus an error message. -/
inductive ExcelResponse where
  | file (status : Nat) (contentType : String) (contentDisposition : String)
      (body : List Nat)
  | error (status : Nat) (message : String)
deriving DecidableEq

/-- The `for (const table of tables)` persistence loop of the POST /api/extract
handler: tables are persisted strictly sequentially; `oracle i` is the outcome
of the i-th `db.insert` call (`none` = success, `some msg` = the call throws).
The loop stops at the first failure, which propagates to the handler's catch
block with the database state reached so far. -/
def persistTables (docId : Nat) (oracle : Nat → Option String) :
    List ExtractedTableData → Nat → Db → Option String × Db
  | [], _, db => (none, db)
  | t :: ts, i, db =>
    match oracle i with
    | some msg => (some msg, db)
    | none =>
      persistTables docId oracle ts (i + 1)
        (DatabaseStorage.createExtractedTable db
          { documentId := docId, tableIndex := t.tableIndex, pageNumber := t.info.pageNumber,
            tableData := t.data, tableInfo := t.info }).2

/-- The POST /api/extract handler body (routes.ts).  `file?` is `req.file`;
`extractResult` is the outcome of `extractTablesFromPdf(file.buffer)`;
`docInsertOutcome` and `tableInsertOracle` are the outcomes of the document and
table insert calls; `requestDate` is `new Date().toISOString()` (validated by
the zod schema and then ignored by `createPdfDocument`).  Any thrown error is
caught and answered as 500 with the error's message. -/
def extractHandler (file? : Option UploadedFile)
    (extractResult : Except String (List ExtractedTableData))
    (docInsertOutcome : Option String) (tableInsertOracle : Nat → Option String)
    (requestDate : String) (db : Db) : ExtractResponse × Db :=
  match file? with
  | none => (.error 400 "No PDF file uploaded", db)
  | some file =>
    match extractResult with
    | .error msg => (.error 500 msg, db)
    | .ok tables =>
      match docInsertOutcome with
      | some msg => (.error 500 msg, db)
      | none =>
        let pr := DatabaseStorage.createPdfDocument db
          { filename := file.originalname, filesize := file.size,
            uploadDate := requestDate, userId := none }
        match persistTables pr.1.id tableInsertOracle tables 0 pr.2 with
        | (some msg, db') => (.error 500 msg, db')
        | (none, db') =>
          (.success 200 pr.1.id pr.1.filename pr.1.filesize pr.1.uploadDate tables, db')

/-- The whole POST /api/extract route: multer's single-file upload in front of
the handler.  When multer rejects the file, the handler — and with it the
extraction function — is never invoked; when it accepts, the handler receives
the complete in-memory buffer and extraction runs on exactly those bytes. -/
def extractPipeline (extractTablesFromPdf : List Nat → Except String (List ExtractedTableData))
    (docInsertOutcome : Option String) (tableInsertOracle : Nat → Option String)
    (requestDate : String) (incoming : Option IncomingFile) (db : Db) :
    ExtractResponse × Db :=
  match incoming with
  | none => extractHandler none (.ok []) docInsertOutcome tableInsertOracle requestDate db
  | some f =>
    match uploadSingle f with
    | .error msg => (.error 500 msg, db)
    | .ok uf =>
      extractHandler (some uf) (extractTablesFromPdf uf.buffer) docInsertOutcome
        tableInsertOracle requestDate db

/-- The xlsx content type set by both Excel routes. -/
def xlsxMimeType : String :=
  "application/vnd.openxmlformats-officedocument.spreadsheetml.sheet"

/-- JavaScript `String.prototype.replace` with a plain string pattern replaces
only the first occurrence (routes.ts: `document.filename.replace('.pdf', '')`);
helper on character lists. -/
def replaceFirstAux (pat rep : List Char) : List Char → List Char
  | [] => []
  | c :: rest =>
    if pat.isPrefixOf (c :: rest) then rep ++ (c :: rest).drop pat.length
    else c :: replaceFirstAux pat rep rest

/-- JavaScript first-occurrence string replace on `String`. -/
def jsReplaceFirst (s pat rep : String) : String :=
  ⟨replaceFirstAux pat.data rep.data s.data⟩

/-- The GET /api/tables/:id/excel handler (routes.ts).  `tableId?` is the
parsed `:id` (`none` when `parseInt` gave NaN); `generateExcelFile` is the
encoder, whose thrown error is caught and answered as 500. -/
def tableExcelHandler (tableId? : Option Nat)
    (generateExcelFile : TableData → Except String (List Nat)) (db : Db) :
    ExcelResponse × Db :=
  match tableId? with
  | none => (.error 400 "Invalid table ID", db)
  | some tableId =>
    match DatabaseStorage.getExtractedTable db tableId with
    | none => (.error 404 "Table not found", db)
    | some table =>
      match generateExcelFile table.tableData with
      | .error _ => (.error 500 "Failed to generate Excel file", db)
      | .ok buf =>
        (.file 200 xlsxMimeType
          ("attachment; filename=table-" ++ toString tableId ++ ".xlsx") buf, db)

/-- The GET /api/documents/:id/excel handler (routes.ts): looks up the
document, loads its tables, answers 404 when the table list is empty, and
otherwise encodes the consolidated workbook from the tables' data. -/
def documentExcelHandler (documentId? : Option Nat)
    (generateConsolidatedExcel : List TableData → Except String (List Nat)) (db : Db) :
    ExcelResponse × Db :=
  match documentId? with
  | none => (.error 400 "Invalid document ID", db)
  | some documentId =>
    match DatabaseStorage.getPdfDocument db documentId with
    | none => (.error 404 "Document not found", db)
    | some document =>
      if (DatabaseStorage.getExtractedTablesByDocumentId db documentId).length = 0 then
        (.error 404 "No tables found in document", db)
      else
        match generateConsolidatedExcel
            ((DatabaseStorage.getExtractedTablesByDocumentId db documentId).map
              (fun t => t.data)) with
        | .error _ => (.error 500 "Failed to generate Excel file", db)
        | .ok buf =>
          (.file 200 xlsxMimeType
            ("attachment; filename=" ++ jsReplaceFirst document.filename ".pdf" ""
              ++ "-tables.xlsx") buf, db)

/-- Identity of a `DatabaseStorage` allocation (the class has no fields, so an
instance is characterised by its allocation). -/
structure StorageHandle where
  allocationId : Nat
deriving DecidableEq

/-- storage.ts, module top level: `export const storage = new DatabaseStorage()`
— the one instance, allocated when the module is first imported. -/
def storage : StorageHandle := ⟨0⟩

/-- routes.ts, line 5: `import { storage } from './storage'` — the binding the
route layer obtains by import; it denotes the module-level instance. -/
def routesImportedStorage : StorageHandle := storage

/-- Events of process start-up, index.ts.  Module imports (including the
evaluation of storage.ts's top level, which allocates the storage handle) run
before `main` does anything; `main` then starts the listener and afterwards
calls `registerRoutes(app)`. -/
inductive StartupEvent where
  | importStorageModule
  | appListen
  | registerRoutesCall
deriving DecidableEq, BEq

/-- Order of start-up events as index.ts runs them. -/
def startupSequence : List StartupEvent :=
  [.importStorageModule, .appListen, .registerRoutesCall]

/-- Claim C3: when extraction returns the empty sequence, POST /api/extract
treats it as a valid result: the document record is persisted, no table row is
stored, and the response is status 200 with an empty tables array. -/
theorem extract_empty_tables_ok (file : UploadedFile) (oracle : Nat → Option String)
    (requestDate : String) (db : Db) :
    (extractHandler (some file) (.ok []) none oracle requestDate db).1
      = .success 200 db.nextDocId file.originalname file.size db.now [] ∧
    (extractHandler (some file) (.ok []) none oracle requestDate db).2.tables = db.tables ∧
    (extractHandler (some file) (.ok []) none oracle requestDate db).2.documents
      = db.documents ++ [⟨db.nextDocId, file.originalname, file.size, db.now, none⟩] :=
  ⟨rfl, rfl, rfl⟩

/-- Claim C6: when `extractTablesFromPdf` fails (whole document unreadable),
POST /api/extract answers a structured 500 error carrying the failure's message
and leaves the database untouched: no document record and no table record is
persisted for that request. -/
theorem extract_unreadable_document_propagated (file : UploadedFile) (msg : String)
    (docInsertOutcome : Option String) (oracle : Nat → Option String)
    (requestDate : String) (db : Db) :
    extractHandler (some file) (.error msg) docInsertOutcome oracle requestDate db
      = (.error 500 msg, db) :=
  rfl

/-- Claim C8 is refuted by the code: storage.ts allocates its one
`DatabaseStorage` instance at module import time (`export const storage = new
DatabaseStorage()`), and routes.ts line 5 consumes exactly that implicitly
global handle via import — the binding the route layer uses is the module-level
instance. -/
theorem storage_handle_is_import_global : routesImportedStorage = storage :=
  rfl

/-- Claim C8, amended: the persistence handle is a single `DatabaseStorage`
instance created implicitly at module import time in storage.ts and consumed by
the route layer via import — not passed by reference — and its creation (during
module import) precedes the `registerRoutes` call in the process start-up
sequence of index.ts. -/
theorem storage_handle_module_global :
    routesImportedStorage = storage ∧
    startupSequence.indexOf StartupEvent.importStorageModule
      < startupSequence.indexOf StartupEvent.registerRoutesCall :=
  ⟨rfl, by decide⟩

/-- Claim C2 is refuted by the code: with three extracted tables and the second
`db.insert` call throwing, POST /api/extract answers 500 with only that error
message — an all-or-nothing failure carrying no list of succeeded items and no
per-item failure list — and the sequential loop aborts: only the first table is
persisted, the third is never attempted. -/
theorem extract_persistence_not_batched :
    (extractHandler (some ⟨"a.pdf", 3, [1, 2, 3]⟩)
        (.ok [⟨0, [["x"]], ⟨1, 0, 1, 1, 0, 0, 1, 1, 1⟩⟩,
              ⟨1, [["y"]], ⟨1, 1, 1, 1, 0, 0, 1, 1, 1⟩⟩,
              ⟨2, [["z"]], ⟨1, 2, 1, 1, 0, 0, 1, 1, 1⟩⟩])
        none (fun i => if i = 1 then some "insert failed" else none)
        "2024-01-01" ⟨[], [], 1, 1, "2024-01-01"⟩).1
      = .error 500 "insert failed" ∧
    ((extractHandler (some ⟨"a.pdf", 3, [1, 2, 3]⟩)
        (.ok [⟨0, [["x"]], ⟨1, 0, 1, 1, 0, 0, 1, 1, 1⟩⟩,
              ⟨1, [["y"]], ⟨1, 1, 1, 1, 0, 0, 1, 1, 1⟩⟩,
              ⟨2, [["z"]], ⟨1, 2, 1, 1, 0, 0, 1, 1, 1⟩⟩])
        none (fun i => if i = 1 then some "insert failed" else none)
        "2024-01-01" ⟨[], [], 1, 1, "2024-01-01"⟩).2.tables.map
          (fun t => t.tableIndex))
      = [0] :=
  ⟨rfl, rfl⟩

/-- Claim C1: a table stored through `DatabaseStorage.createExtractedTable` is
preserved verbatim — `getExtractedTable` on the new row's id returns the row,
whose `tableIndex`, `pageNumber`, `tableData`, `tableInfo` equal the stored
values, and `getExtractedTablesByDocumentId` on its document id contains the
projection `{tableIndex, data, info}` of the stored values.  The hypothesis is
the database invariant that existing row ids lie below the next serial id. -/
theorem createExtractedTable_roundtrip (db : Db) (ins : InsertExtractedTable)
    (hwf : ∀ t ∈ db.tables, t.id < db.nextTableId) :
    DatabaseStorage.getExtractedTable (DatabaseStorage.createExtractedTable db ins).2
        (DatabaseStorage.createExtractedTable db ins).1.id
      = some (DatabaseStorage.createExtractedTable db ins).1 ∧
    (DatabaseStorage.createExtractedTable db ins).1.tableIndex = ins.tableIndex ∧
    (DatabaseStorage.createExtractedTable db ins).1.pageNumber = ins.pageNumber ∧
    (DatabaseStorage.createExtractedTable db ins).1.tableData = ins.tableData ∧
    (DatabaseStorage.createExtractedTable db ins).1.tableInfo = ins.tableInfo ∧
    (⟨ins.tableIndex, ins.tableData, ins.tableInfo⟩ : ExtractedTableData) ∈
      DatabaseStorage.getExtractedTablesByDocumentId
        (DatabaseStorage.createExtractedTable db ins).2 ins.documentId := by
  refine ⟨?_, rfl, rfl, rfl, rfl, ?_⟩
  · have h1 : db.tables.filter (fun t => t.id == db.nextTableId) = [] := by
      rw [List.filter_eq_nil_iff]
      intro t ht
      simp only [beq_iff_eq]
      exact Nat.ne_of_lt (hwf t ht)
    show ((db.tables ++ [_]).filter
        (fun t : ExtractedTableRow => t.id == db.nextTableId)).head? = _
    rw [List.filter_append, h1]
    simp only [List.nil_append, List.filter_cons, beq_self_eq_true, if_pos, List.filter_nil,
      List.head?]
    rfl
  · show _ ∈ (List.insertionSort tableIndexLe
        ((db.tables ++ [_]).filter
          (fun t : ExtractedTableRow => t.documentId == ins.documentId))).map _
    refine List.mem_map.mpr
      ⟨{ id := db.nextTableId, documentId := ins.documentId, tableIndex := ins.tableIndex,
         pageNumber := ins.pageNumber, tableData := ins.tableData, tableInfo := ins.tableInfo },
       ?_, rfl⟩
    rw [List.mem_insertionSort, List.mem_filter]
    exact ⟨List.mem_append_right _ (List.mem_singleton.mpr rfl), by simp⟩

/-- Claim C1's theorem instantiated at a concrete database and payload. -/
theorem createExtractedTable_roundtrip_witness :
    (∀ t ∈ (Db.mk [] [] 1 1 "2024-01-01").tables, t.id < (Db.mk [] [] 1 1 "2024-01-01").nextTableId) ∧
    (DatabaseStorage.getExtractedTable
        (DatabaseStorage.createExtractedTable (Db.mk [] [] 1 1 "2024-01-01")
          ⟨7, 2, 1, [["a", "b"]], ⟨1, 2, 1, 2, 0, 0, 1, 1, 1⟩⟩).2
        (DatabaseStorage.createExtractedTable (Db.mk [] [] 1 1 "2024-01-01")
          ⟨7, 2, 1, [["a", "b"]], ⟨1, 2, 1, 2, 0, 0, 1, 1, 1⟩⟩).1.id
      = some (DatabaseStorage.createExtractedTable (Db.mk [] [] 1 1 "2024-01-01")
          ⟨7, 2, 1, [["a", "b"]], ⟨1, 2, 1, 2, 0, 0, 1, 1, 1⟩⟩).1 ∧
    (DatabaseStorage.createExtractedTable (Db.mk [] [] 1 1 "2024-01-01")
        ⟨7, 2, 1, [["a", "b"]], ⟨1, 2, 1, 2, 0, 0, 1, 1, 1⟩⟩).1.tableIndex = 2 ∧
    (DatabaseStorage.createExtractedTable (Db.mk [] [] 1 1 "2024-01-01")
        ⟨7, 2, 1, [["a", "b"]], ⟨1, 2, 1, 2, 0, 0, 1, 1, 1⟩⟩).1.pageNumber = 1 ∧
    (DatabaseStorage.createExtractedTable (Db.mk [] [] 1 1 "2024-01-01")
        ⟨7, 2, 1, [["a", "b"]], ⟨1, 2, 1, 2, 0, 0, 1, 1, 1⟩⟩).1.tableData = [["a", "b"]] ∧
    (DatabaseStorage.createExtractedTable (Db.mk [] [] 1 1 "2024-01-01")
        ⟨7, 2, 1, [["a", "b"]], ⟨1, 2, 1, 2, 0, 0, 1, 1, 1⟩⟩).1.tableInfo = ⟨1, 2, 1, 2, 0, 0, 1, 1, 1⟩ ∧
    (⟨2, [["a", "b"]], ⟨1, 2, 1, 2, 0, 0, 1, 1, 1⟩⟩ : ExtractedTableData) ∈
      DatabaseStorage.getExtractedTablesByDocumentId
        (DatabaseStorage.createExtractedTable (Db.mk [] [] 1 1 "2024-01-01")
          ⟨7, 2, 1, [["a", "b"]], ⟨1, 2, 1, 2, 0, 0, 1, 1, 1⟩⟩).2 7) :=
  ⟨by simp, createExtractedTable_roundtrip (Db.mk [] [] 1 1 "2024-01-01")
    ⟨7, 2, 1, [["a", "b"]], ⟨1, 2, 1, 2, 0, 0, 1, 1, 1⟩⟩ (by simp)⟩

/-- Claim C9: `getExtractedTablesByDocumentId` returns the document's stored
tables sorted by ascending `tableIndex` — whatever order the rows were inserted
in — and the result is a permutation of the `{tableIndex, data, info}`
projections of precisely the document's stored rows. -/
theorem getExtractedTablesByDocumentId_sorted_projection (db : Db) (documentId : Nat) :
    List.Sorted (fun a b : ExtractedTableData => a.tableIndex ≤ b.tableIndex)
      (DatabaseStorage.getExtractedTablesByDocumentId db documentId) ∧
    (DatabaseStorage.getExtractedTablesByDocumentId db documentId).Perm
      ((db.tables.filter (fun t => t.documentId == documentId)).map
        (fun t => ⟨t.tableIndex, t.tableData, t.tableInfo⟩)) := by
  constructor
  · show List.Pairwise _ ((List.insertionSort tableIndexLe _).map _)
    rw [List.pairwise_map]
    exact List.sorted_insertionSort tableIndexLe _
  · exact List.Perm.map _ (List.perm_insertionSort tableIndexLe _)

/-- The persistence loop stops at its first failing insert: when the calls
before position `i` succeed and call `i` throws, the loop's outcome is that
error and exactly the first `i` tables were appended to the database. -/
theorem persistTables_first_failure (docId : Nat) (oracle : Nat → Option String)
    (ts : List ExtractedTableData) :
    ∀ (i n : Nat) (db : Db) (msg : String), i < ts.length → oracle (n + i) = some msg →
      (∀ j < i, oracle (n + j) = none) →
      (persistTables docId oracle ts n db).1 = some msg ∧
      (persistTables docId oracle ts n db).2.tables.length = db.tables.length + i := by
  induction ts with
  | nil =>
    intro i n db msg hi
    exact absurd hi (by simp)
  | cons t ts ih =>
    intro i n db msg hi hfail hok
    cases i with
    | zero =>
      have h0 : oracle n = some msg := hfail
      simp [persistTables, h0]
    | succ i =>
      have h0 : oracle n = none := hok 0 (Nat.succ_pos i)
      have hrec := ih i (n + 1)
        (DatabaseStorage.createExtractedTable db
          { documentId := docId, tableIndex := t.tableIndex, pageNumber := t.info.pageNumber,
            tableData := t.data, tableInfo := t.info }).2 msg
        (Nat.lt_of_succ_lt_succ hi)
        (by rw [show n + 1 + i = n + (i + 1) by omega]; exact hfail)
        (fun j hj => by
          rw [show n + 1 + j = n + (j + 1) by omega]
          exact hok (j + 1) (Nat.succ_lt_succ hj))
      simp only [persistTables, h0]
      refine ⟨hrec.1, ?_⟩
      rw [hrec.2]
      simp only [DatabaseStorage.createExtractedTable, List.length_append, List.length_cons,
        List.length_nil]
      omega

/-- The persistence loop never touches the documents table. -/
theorem persistTables_documents (docId : Nat) (oracle : Nat → Option String)
    (ts : List ExtractedTableData) :
    ∀ (n : Nat) (db : Db), (persistTables docId oracle ts n db).2.documents = db.documents := by
  induction ts with
  | nil => intro n db; rfl
  | cons t ts ih =>
    intro n db
    simp only [persistTables]
    cases h : oracle n with
    | some msg => rfl
    | none => exact ih (n + 1) _

/-- Claim C2, amended: persistence of the extracted tables is sequential with
first-failure abort, not batched — when the inserts before position `i` succeed
and insert `i` throws, POST /api/extract answers an all-or-nothing 500 carrying
only that error's message (no list of succeeded items, no per-item failure
list), while the document record and exactly the `i` tables persisted before
the failure remain in storage. -/
theorem extract_first_failure_aborts (file : UploadedFile)
    (tables : List ExtractedTableData) (oracle : Nat → Option String)
    (requestDate : String) (db : Db) (i : Nat) (msg : String)
    (hi : i < tables.length) (hfail : oracle i = some msg)
    (hok : ∀ j < i, oracle j = none) :
    (extractHandler (some file) (.ok tables) none oracle requestDate db).1
      = .error 500 msg ∧
    (extractHandler (some file) (.ok tables) none oracle requestDate db).2.tables.length
      = db.tables.length + i ∧
    (extractHandler (some file) (.ok tables) none oracle requestDate db).2.documents.length
      = db.documents.length + 1 := by
  have hp := persistTables_first_failure db.nextDocId oracle tables i 0
    { db with
        documents := db.documents ++ [⟨db.nextDocId, file.originalname, file.size, db.now, none⟩],
        nextDocId := db.nextDocId + 1 }
    msg hi (by simpa using hfail) (fun j hj => by simpa using hok j hj)
  have he : extractHandler (some file) (.ok tables) none oracle requestDate db
      = (match persistTables db.nextDocId oracle tables 0
            { db with
                documents := db.documents
                  ++ [⟨db.nextDocId, file.originalname, file.size, db.now, none⟩],
                nextDocId := db.nextDocId + 1 } with
         | (some m, d) => (ExtractResponse.error 500 m, d)
         | (none, d) =>
            (ExtractResponse.success 200 db.nextDocId file.originalname file.size db.now
              tables, d)) := rfl
  rcases hps : persistTables db.nextDocId oracle tables 0
      { db with
          documents := db.documents
            ++ [⟨db.nextDocId, file.originalname, file.size, db.now, none⟩],
          nextDocId := db.nextDocId + 1 } with ⟨o, db2⟩
  have hd := persistTables_documents db.nextDocId oracle tables 0
    { db with
        documents := db.documents ++ [⟨db.nextDocId, file.originalname, file.size, db.now, none⟩],
        nextDocId := db.nextDocId + 1 }
  rw [hps] at he hp hd
  obtain ⟨ho, hlen⟩ := hp
  have ho2 : o = some msg := ho
  subst ho2
  rw [he]
  exact ⟨rfl, by simpa using hlen, by simp at hd ⊢; simp [hd]⟩

/-- Claim C2's amended theorem instantiated: three tables, the second insert
throws, the response is the 500 error and one table plus the document were
persisted. -/
theorem extract_first_failure_aborts_witness :
    ((1 : Nat) < 3 ∧
      (fun i => if i = 1 then some "boom" else none) 1 = some "boom" ∧
      (∀ j < 1, (fun i => if i = 1 then some "boom" else none) j = none)) ∧
    ((extractHandler (some ⟨"a.pdf", 3, [9]⟩)
        (.ok [⟨0, [["x"]], ⟨1, 0, 1, 1, 0, 0, 1, 1, 1⟩⟩,
              ⟨1, [["y"]], ⟨1, 1, 1, 1, 0, 0, 1, 1, 1⟩⟩,
              ⟨2, [["z"]], ⟨1, 2, 1, 1, 0, 0, 1, 1, 1⟩⟩])
        none (fun i => if i = 1 then some "boom" else none)
        "2024-01-02" ⟨[], [], 1, 1, "2024-01-02"⟩).1 = .error 500 "boom" ∧
      (extractHandler (some ⟨"a.pdf", 3, [9]⟩)
        (.ok [⟨0, [["x"]], ⟨1, 0, 1, 1, 0, 0, 1, 1, 1⟩⟩,
              ⟨1, [["y"]], ⟨1, 1, 1, 1, 0, 0, 1, 1, 1⟩⟩,
              ⟨2, [["z"]], ⟨1, 2, 1, 1, 0, 0, 1, 1, 1⟩⟩])
        none (fun i => if i = 1 then some "boom" else none)
        "2024-01-02" ⟨[], [], 1, 1, "2024-01-02"⟩).2.tables.length
          = (Db.mk [] [] 1 1 "2024-01-02").tables.length + 1 ∧
      (extractHandler (some ⟨"a.pdf", 3, [9]⟩)
        (.ok [⟨0, [["x"]], ⟨1, 0, 1, 1, 0, 0, 1, 1, 1⟩⟩,
              ⟨1, [["y"]], ⟨1, 1, 1, 1, 0, 0, 1, 1, 1⟩⟩,
              ⟨2, [["z"]], ⟨1, 2, 1, 1, 0, 0, 1, 1, 1⟩⟩])
        none (fun i => if i = 1 then some "boom" else none)
        "2024-01-02" ⟨[], [], 1, 1, "2024-01-02"⟩).2.documents.length
          = (Db.mk [] [] 1 1 "2024-01-02").documents.length + 1) :=
  ⟨⟨by decide, by decide, by decide⟩,
    extract_first_failure_aborts ⟨"a.pdf", 3, [9]⟩
      [⟨0, [["x"]], ⟨1, 0, 1, 1, 0, 0, 1, 1, 1⟩⟩,
       ⟨1, [["y"]], ⟨1, 1, 1, 1, 0, 0, 1, 1, 1⟩⟩,
       ⟨2, [["z"]], ⟨1, 2, 1, 1, 0, 0, 1, 1, 1⟩⟩]
      (fun i => if i = 1 then some "boom" else none)
      "2024-01-02" ⟨[], [], 1, 1, "2024-01-02"⟩ 1 "boom"
      (by decide) (by decide) (by decide)⟩

/-- Claim C4: multer enforces the 10 MB size limit and the application/pdf type
restriction before the handler runs — a file over the limit or of another media
type is rejected with an error response, the database is untouched, and the
pipeline's result does not depend on the extraction function at all (it is
never invoked); an accepted file reaches the handler as a complete in-memory
buffer and extraction runs on exactly those bytes. -/
theorem upload_limits_enforced (f : IncomingFile)
    (e1 e2 : List Nat → Except String (List ExtractedTableData))
    (docInsertOutcome : Option String) (oracle : Nat → Option String)
    (requestDate : String) (db : Db) :
    ((maxUploadBytes < f.bytes.length ∨ f.mimetype ≠ "application/pdf") →
      extractPipeline e1 docInsertOutcome oracle requestDate (some f) db
        = extractPipeline e2 docInsertOutcome oracle requestDate (some f) db ∧
      ∃ msg, extractPipeline e1 docInsertOutcome oracle requestDate (some f) db
        = (.error 500 msg, db)) ∧
    (f.bytes.length ≤ maxUploadBytes → f.mimetype = "application/pdf" →
      extractPipeline e1 docInsertOutcome oracle requestDate (some f) db
        = extractHandler (some ⟨f.originalname, f.bytes.length, f.bytes⟩)
            (e1 f.bytes) docInsertOutcome oracle requestDate db) := by
  constructor
  · intro h
    unfold extractPipeline
    dsimp only
    unfold uploadSingle
    by_cases hm : f.mimetype = "application/pdf"
    · have hs : ¬ f.bytes.length ≤ maxUploadBytes := by
        rcases h with h | h
        · omega
        · exact absurd hm h
      rw [if_pos hm, if_neg hs]
      exact ⟨rfl, "File too large", rfl⟩
    · rw [if_neg hm]
      exact ⟨rfl, "Only PDF files are allowed", rfl⟩
  · intro hs hm
    unfold extractPipeline
    dsimp only
    unfold uploadSingle
    rw [if_pos hm, if_pos hs]

/-- Claim C4's theorem instantiated: a text/plain upload is rejected
independently of the extraction function, and a small PDF upload reaches the
handler with its complete byte buffer. -/
theorem upload_limits_enforced_witness :
    ((maxUploadBytes < (IncomingFile.mk "a.txt" "text/plain" []).bytes.length ∨
        (IncomingFile.mk "a.txt" "text/plain" []).mimetype ≠ "application/pdf") ∧
      (extractPipeline (fun _ => .ok []) none (fun _ => none) "d"
          (some ⟨"a.txt", "text/plain", []⟩) ⟨[], [], 1, 1, "d"⟩
        = extractPipeline (fun _ => .error "other") none (fun _ => none) "d"
          (some ⟨"a.txt", "text/plain", []⟩) ⟨[], [], 1, 1, "d"⟩ ∧
       ∃ msg, extractPipeline (fun _ => .ok []) none (fun _ => none) "d"
          (some ⟨"a.txt", "text/plain", []⟩) ⟨[], [], 1, 1, "d"⟩
         = (.error 500 msg, ⟨[], [], 1, 1, "d"⟩))) ∧
    ((IncomingFile.mk "b.pdf" "application/pdf" [9]).bytes.length ≤ maxUploadBytes ∧
      (IncomingFile.mk "b.pdf" "application/pdf" [9]).mimetype = "application/pdf" ∧
      extractPipeline (fun _ => .ok []) none (fun _ => none) "d"
          (some ⟨"b.pdf", "application/pdf", [9]⟩) ⟨[], [], 1, 1, "d"⟩
        = extractHandler (some ⟨"b.pdf", 1, [9]⟩) ((fun _ => .ok []) [9]) none
            (fun _ => none) "d" ⟨[], [], 1, 1, "d"⟩) :=
  ⟨⟨Or.inr (by decide),
    (upload_limits_enforced ⟨"a.txt", "text/plain", []⟩ (fun _ => .ok [])
      (fun _ => .error "other") none (fun _ => none) "d" ⟨[], [], 1, 1, "d"⟩).1
      (Or.inr (by decide))⟩,
   ⟨by decide, rfl,
    (upload_limits_enforced ⟨"b.pdf", "application/pdf", [9]⟩ (fun _ => .ok [])
      (fun _ => .error "other") none (fun _ => none) "d" ⟨[], [], 1, 1, "d"⟩).2
      (by decide) rfl⟩⟩

/-- Claim C5: a workbook-generation failure is fatal only for that download
request — both Excel handlers never write to storage (the database state they
return is the one they received, so every previously persisted document and
table is unchanged), and when the encoder fails the response for that request
is an error response. -/
theorem excel_encode_failure_request_scoped (tableId? documentId? : Option Nat)
    (gen : TableData → Except String (List Nat))
    (genC : List TableData → Except String (List Nat)) (db : Db) :
    (tableExcelHandler tableId? gen db).2 = db ∧
    (documentExcelHandler documentId? genC db).2 = db ∧
    ((∀ t, ∃ m, gen t = .error m) →
      ∃ s m, (tableExcelHandler tableId? gen db).1 = .error s m) ∧
    ((∀ ts, ∃ m, genC ts = .error m) →
      ∃ s m, (documentExcelHandler documentId? genC db).1 = .error s m) := by
  refine ⟨?_, ?_, ?_, ?_⟩
  · cases tableId? with
    | none => rfl
    | some tid =>
      unfold tableExcelHandler
      dsimp only
      cases DatabaseStorage.getExtractedTable db tid with
      | none => rfl
      | some tbl =>
        dsimp only
        cases gen tbl.tableData with
        | error m => rfl
        | ok b => rfl
  · cases documentId? with
    | none => rfl
    | some did =>
      unfold documentExcelHandler
      dsimp only
      cases DatabaseStorage.getPdfDocument db did with
      | none => rfl
      | some doc =>
        dsimp only
        by_cases hc : (DatabaseStorage.getExtractedTablesByDocumentId db did).length = 0
        · rw [if_pos hc]
        · rw [if_neg hc]
          cases genC ((DatabaseStorage.getExtractedTablesByDocumentId db did).map
              (fun t => t.data)) with
          | error m => rfl
          | ok b => rfl
  · intro hfail
    cases tableId? with
    | none => exact ⟨400, "Invalid table ID", rfl⟩
    | some tid =>
      unfold tableExcelHandler
      dsimp only
      cases DatabaseStorage.getExtractedTable db tid with
      | none => exact ⟨404, "Table not found", rfl⟩
      | some tbl =>
        dsimp only
        obtain ⟨m, hm⟩ := hfail tbl.tableData
        rw [hm]
        exact ⟨500, "Failed to generate Excel file", rfl⟩
  · intro hfail
    cases documentId? with
    | none => exact ⟨400, "Invalid document ID", rfl⟩
    | some did =>
      unfold documentExcelHandler
      dsimp only
      cases DatabaseStorage.getPdfDocument db did with
      | none => exact ⟨404, "Document not found", rfl⟩
      | some doc =>
        dsimp only
        by_cases hc : (DatabaseStorage.getExtractedTablesByDocumentId db did).length = 0
        · rw [if_pos hc]
          exact ⟨404, "No tables found in document", rfl⟩
        · rw [if_neg hc]
          obtain ⟨m, hm⟩ := hfail
            ((DatabaseStorage.getExtractedTablesByDocumentId db did).map (fun t => t.data))
          rw [hm]
          exact ⟨500, "Failed to generate Excel file", rfl⟩

/-- Claim C5's theorem instantiated at a database holding one document and one
table, with encoders that always fail. -/
theorem excel_encode_failure_request_scoped_witness :
    (∀ t : TableData, ∃ m,
      (fun _ : TableData => (Except.error "enc" : Except String (List Nat))) t = .error m) ∧
    (∀ ts : List TableData, ∃ m,
      (fun _ : List TableData => (Except.error "enc" : Except String (List Nat))) ts
        = .error m) ∧
    (tableExcelHandler (some 1) (fun _ => .error "enc")
        ⟨[⟨1, "a.pdf", 3, "d", none⟩], [⟨1, 1, 0, 1, [["x"]], ⟨1, 0, 1, 1, 0, 0, 1, 1, 1⟩⟩], 2, 2, "d"⟩).2
      = ⟨[⟨1, "a.pdf", 3, "d", none⟩], [⟨1, 1, 0, 1, [["x"]], ⟨1, 0, 1, 1, 0, 0, 1, 1, 1⟩⟩], 2, 2, "d"⟩ ∧
    (documentExcelHandler (some 1) (fun _ => .error "enc")
        ⟨[⟨1, "a.pdf", 3, "d", none⟩], [⟨1, 1, 0, 1, [["x"]], ⟨1, 0, 1, 1, 0, 0, 1, 1, 1⟩⟩], 2, 2, "d"⟩).2
      = ⟨[⟨1, "a.pdf", 3, "d", none⟩], [⟨1, 1, 0, 1, [["x"]], ⟨1, 0, 1, 1, 0, 0, 1, 1, 1⟩⟩], 2, 2, "d"⟩ ∧
    (∃ s m, (tableExcelHandler (some 1) (fun _ => .error "enc")
        ⟨[⟨1, "a.pdf", 3, "d", none⟩], [⟨1, 1, 0, 1, [["x"]], ⟨1, 0, 1, 1, 0, 0, 1, 1, 1⟩⟩], 2, 2, "d"⟩).1
      = .error s m) ∧
    (∃ s m, (documentExcelHandler (some 1) (fun _ => .error "enc")
        ⟨[⟨1, "a.pdf", 3, "d", none⟩], [⟨1, 1, 0, 1, [["x"]], ⟨1, 0, 1, 1, 0, 0, 1, 1, 1⟩⟩], 2, 2, "d"⟩).1
      = .error s m) :=
  have hA : ∀ t : TableData, ∃ m,
      (fun _ : TableData => (Except.error "enc" : Except String (List Nat))) t = .error m :=
    fun _ => ⟨"enc", rfl⟩
  have hB : ∀ ts : List TableData, ∃ m,
      (fun _ : List TableData => (Except.error "enc" : Except String (List Nat))) ts
        = .error m :=
    fun _ => ⟨"enc", rfl⟩
  have hT := excel_encode_failure_request_scoped (some 1) (some 1)
    (fun _ => .error "enc") (fun _ => .error "enc")
    ⟨[⟨1, "a.pdf", 3, "d", none⟩], [⟨1, 1, 0, 1, [["x"]], ⟨1, 0, 1, 1, 0, 0, 1, 1, 1⟩⟩], 2, 2, "d"⟩
  ⟨hA, hB, hT.1, hT.2.1, hT.2.2.1 hA, hT.2.2.2 hB⟩

/-- Claim C7: every successful Excel download response — single-table or
consolidated — carries status 200, the xlsx spreadsheet content type, a
Content-Disposition header of the form `attachment; filename=...`, and exactly
the encoder's output bytes as its body. -/
theorem excel_success_sets_headers (tableId? documentId? : Option Nat)
    (gen : TableData → Except String (List Nat))
    (genC : List TableData → Except String (List Nat)) (db : Db) :
    (∀ s ct cd b, (tableExcelHandler tableId? gen db).1 = .file s ct cd b →
      s = 200 ∧ ct = xlsxMimeType ∧
      (∃ fname, cd = "attachment; filename=" ++ fname) ∧ ∃ t, gen t = .ok b) ∧
    (∀ s ct cd b, (documentExcelHandler documentId? genC db).1 = .file s ct cd b →
      s = 200 ∧ ct = xlsxMimeType ∧
      (∃ fname, cd = "attachment; filename=" ++ fname) ∧ ∃ ts, genC ts = .ok b) := by
  constructor
  · intro s ct cd b h
    cases tableId? with
    | none => simp [tableExcelHandler] at h
    | some tid =>
      unfold tableExcelHandler at h
      dsimp only at h
      cases htb : DatabaseStorage.getExtractedTable db tid with
      | none => rw [htb] at h; simp at h
      | some tbl =>
        rw [htb] at h
        dsimp only at h
        cases hg : gen tbl.tableData with
        | error m => rw [hg] at h; simp at h
        | ok buf =>
          rw [hg] at h
          have h2 : ExcelResponse.file 200 xlsxMimeType
              ("attachment; filename=table-" ++ toString tid ++ ".xlsx") buf
              = .file s ct cd b := h
          injection h2 with hs hct hcd hb
          subst hs hct hcd hb
          exact ⟨rfl, rfl,
            ⟨"table-" ++ toString tid ++ ".xlsx",
              by rw [← String.append_assoc, ← String.append_assoc]; rfl⟩,
            tbl.tableData, hg⟩
  · intro s ct cd b h
    cases documentId? with
    | none => simp [documentExcelHandler] at h
    | some did =>
      unfold documentExcelHandler at h
      dsimp only at h
      cases hdc : DatabaseStorage.getPdfDocument db did with
      | none => rw [hdc] at h; simp at h
      | some doc =>
        rw [hdc] at h
        dsimp only at h
        by_cases hc : (DatabaseStorage.getExtractedTablesByDocumentId db did).length = 0
        · rw [if_pos hc] at h
          simp at h
        · rw [if_neg hc] at h
          cases hg : genC ((DatabaseStorage.getExtractedTablesByDocumentId db did).map
              (fun t => t.data)) with
          | error m => rw [hg] at h; simp at h
          | ok buf =>
            rw [hg] at h
            have h2 : ExcelResponse.file 200 xlsxMimeType
                ("attachment; filename=" ++ jsReplaceFirst doc.filename ".pdf" ""
                  ++ "-tables.xlsx") buf
                = .file s ct cd b := h
            injection h2 with hs hct hcd hb
            subst hs hct hcd hb
            exact ⟨rfl, rfl,
              ⟨jsReplaceFirst doc.filename ".pdf" "" ++ "-tables.xlsx",
                by rw [← String.append_assoc]⟩,
              (DatabaseStorage.getExtractedTablesByDocumentId db did).map (fun t => t.data),
              hg⟩

/-- Claim C7's theorem instantiated at a database holding one table, whose
single-table download succeeds. -/
theorem excel_success_sets_headers_witness :
    ((tableExcelHandler (some 1) (fun _ => .ok [7])
        ⟨[], [⟨1, 1, 0, 1, [["x"]], ⟨1, 0, 1, 1, 0, 0, 1, 1, 1⟩⟩], 1, 2, "d"⟩).1
      = .file 200 xlsxMimeType
          ("attachment; filename=table-" ++ toString (1 : Nat) ++ ".xlsx") [7]) ∧
    ((200 : Nat) = 200 ∧ xlsxMimeType = xlsxMimeType ∧
      (∃ fname, ("attachment; filename=table-" ++ toString (1 : Nat) ++ ".xlsx")
        = "attachment; filename=" ++ fname) ∧
      ∃ t, (fun _ : TableData => (Except.ok [7] : Except String (List Nat))) t = .ok [7]) :=
  have h : (tableExcelHandler (some 1) (fun _ => .ok [7])
      ⟨[], [⟨1, 1, 0, 1, [["x"]], ⟨1, 0, 1, 1, 0, 0, 1, 1, 1⟩⟩], 1, 2, "d"⟩).1
      = .file 200 xlsxMimeType
          ("attachment; filename=table-" ++ toString (1 : Nat) ++ ".xlsx") [7] := rfl
  ⟨h, (excel_success_sets_headers (some 1) (some 1) (fun _ => .ok [7]) (fun _ => .ok [7])
      ⟨[], [⟨1, 1, 0, 1, [["x"]], ⟨1, 0, 1, 1, 0, 0, 1, 1, 1⟩⟩], 1, 2, "d"⟩).1
    200 xlsxMimeType ("attachment; filename=table-" ++ toString (1 : Nat) ++ ".xlsx") [7] h⟩

/-- Claim C10: for a stored document with zero extracted tables, the
consolidated download answers 404 "No tables found in document" — it never
reaches the encoder — and leaves the database unchanged. -/
theorem document_excel_no_tables_404 (documentId : Nat)
    (genC : List TableData → Except String (List Nat)) (db : Db) (doc : PdfDocumentRow)
    (hdoc : DatabaseStorage.getPdfDocument db documentId = some doc)
    (hempty : DatabaseStorage.getExtractedTablesByDocumentId db documentId = []) :
    documentExcelHandler (some documentId) genC db
      = (.error 404 "No tables found in document", db) := by
  unfold documentExcelHandler
  dsimp only
  rw [hdoc]
  dsimp only
  rw [hempty]
  rfl

/-- Claim C10's theorem instantiated at a database holding one document and no
tables. -/
theorem document_excel_no_tables_404_witness :
    (DatabaseStorage.getPdfDocument ⟨[⟨1, "a.pdf", 3, "d", none⟩], [], 2, 1, "d"⟩ 1
      = some ⟨1, "a.pdf", 3, "d", none⟩) ∧
    (DatabaseStorage.getExtractedTablesByDocumentId
        ⟨[⟨1, "a.pdf", 3, "d", none⟩], [], 2, 1, "d"⟩ 1 = []) ∧
    documentExcelHandler (some 1) (fun _ => .ok [7])
        ⟨[⟨1, "a.pdf", 3, "d", none⟩], [], 2, 1, "d"⟩
      = (.error 404 "No tables found in document",
          ⟨[⟨1, "a.pdf", 3, "d", none⟩], [], 2, 1, "d"⟩) :=
  ⟨rfl, rfl,
    document_excel_no_tables_404 1 (fun _ => .ok [7])
      ⟨[⟨1, "a.pdf", 3, "d", none⟩], [], 2, 1, "d"⟩ ⟨1, "a.pdf", 3, "d", none⟩ rfl rfl⟩

end PdtExtractor
